import Mathlib

/-!
# Verification of the Linkd search client (`src/ar-components-service/src/utils/linkd-api.ts`)

A shallow embedding of the `LinkdAPI` class.  Network I/O is made explicit:
each operation takes, besides its options, the remote service's response
(`Except ApiCallError _` for the HTTP operations, a list of channel events for
the WebSocket operation) and returns the value the TypeScript code would
produce together with the `console.error` log entries it would emit.

JavaScript truthiness (`x || d`) is modelled by the `jsOr*` helpers: `0`,
`""`, `false`, `null` and `undefined` are falsy, everything else (including a
present empty array) is truthy.

`queryExecutionTime` is wall-clock time in the source (`Date.now()`
differences, `execution_time || 0`); we model only the `|| 0` default on the
synchronous path and drop the field from the streamed outcome, since it is
measured time, not computed data.
-/

set_option autoImplicit false
set_option linter.unusedVariables false

namespace LinkdAPI

/-- `x || d` on an optional number: `0`, `null`, `undefined` are falsy. -/
def jsOrNat (v : Option Nat) (d : Nat) : Nat :=
  match v with
  | some n => if n = 0 then d else n
  | none => d

/-- `x || d` on an optional boolean: `false`, `null`, `undefined` are falsy. -/
def jsOrBool (v : Option Bool) (d : Bool) : Bool :=
  match v with
  | some b => if b then b else d
  | none => d

/-- `x || d` on an optional string: `""`, `null`, `undefined` are falsy. -/
def jsOrStr (v : Option String) (d : String) : String :=
  match v with
  | some s => if s = "" then d else s
  | none => d

/-- `sortOrder?: 'asc' | 'desc'` -/
inductive SortOrder where
  | asc
  | desc
deriving DecidableEq

/-- Interface `LinkdSearchOptions`.  `filters?: Record<string, any>` is
modelled as an optional association list of string pairs; its values are never
inspected by the client. -/
structure LinkdSearchOptions where
  query : String
  filters : Option (List (String × String))
  maxResults : Option Nat
  includeDetails : Option Bool
  sortBy : Option String
  sortOrder : Option SortOrder
deriving DecidableEq

/-- `{ name: string; text: string }` inside `recommendations`. -/
structure Recommendation where
  name : String
  text : String
deriving DecidableEq

/-- Interface `LinkdProfileData`. -/
structure LinkdProfileData where
  id : String
  name : String
  affiliation : String
  education : List String
  experience : List String
  interests : List String
  skills : List String
  location : String
  contacts : Option (List String)
  connectionsCount : Option Nat
  bio : Option String
  profileUrl : Option String
  graduationYear : Option Nat
  major : Option String
  clubs : Option (List String)
  volunteerWork : Option (List String)
  awards : Option (List String)
  recommendations : Option (List Recommendation)
deriving DecidableEq

/-- Interface `LinkdIntroRequest`. -/
structure LinkdIntroRequest where
  fromId : String
  toId : String
  message : String
  context : String
deriving DecidableEq

/-- Interface `LinkdSearchResult`.  `queryExecutionTime` is a JS number; the
claims only ever compare it with `0`, so `Nat` suffices. -/
structure LinkdSearchResult where
  profiles : List LinkdProfileData
  totalCount : Nat
  queryExecutionTime : Nat
deriving DecidableEq

/-- A failed HTTP call, as `handleApiError` distinguishes them:
an Axios error carries `response?.status`, `response?.data?.message` and
`message`; anything else is "unexpected". -/
inductive ApiCallError where
  | axios (status : Option Nat) (responseMessage : Option String) (message : String)
  | other (message : String)
deriving DecidableEq

/-- One `console.error` line emitted by `handleApiError` (or the WebSocket
parse handler).  Informational `console.log` lines are not modelled. -/
inductive LogEntry where
  | linkdApiError (methodName : String) (message : String) (status : Option Nat)
  | authFailed
  | unexpectedError (methodName : String)
deriving DecidableEq

/-- `LinkdAPI.handleApiError` (lines 308–323): logs
`Linkd API error in <method>: <response?.data?.message || message> (Status: <status>)`
and, when the status is 401, additionally
`Linkd API authentication failed. Check your API key.` (`LogEntry.authFailed`);
a non-Axios error logs `Unexpected error in <method>`. -/
def handleApiError (methodName : String) : ApiCallError → List LogEntry
  | .axios status responseMessage message =>
      .linkdApiError methodName (jsOrStr responseMessage message) status ::
        (if status = some 401 then [.authFailed] else [])
  | .other _ => [.unexpectedError methodName]

/-- The `params` object built for the synchronous request (lines 76–84) and
the `data` object of the streamed `query` message (lines 139–146).  Both sites
build the same fields; the synchronous site spreads `options.filters` into the
same object while the streamed site sends `filters: options.filters || {}` —
either way the filters are forwarded unchanged. -/
structure SearchRequestParams where
  query : String
  filters : List (String × String)
  limit : Nat
  include_details : Bool
  sort_by : Option String
  sort_order : Option SortOrder
deriving DecidableEq

/-- The `params` of the synchronous `axios.get` call in `searchProfiles`:
`limit: options.maxResults || 10`, `include_details: options.includeDetails || true`. -/
def buildSyncParams (options : LinkdSearchOptions) : SearchRequestParams :=
  { query := options.query
    filters := options.filters.getD []
    limit := jsOrNat options.maxResults 10
    include_details := jsOrBool options.includeDetails true
    sort_by := options.sortBy
    sort_order := options.sortOrder }

/-- The `data` field of the `query` message sent on `ws.on('open')` in
`searchProfilesWebSocket`: the same fields, with `filters: options.filters || {}`. -/
def buildWsQueryData (options : LinkdSearchOptions) : SearchRequestParams :=
  { query := options.query
    filters := options.filters.getD []
    limit := jsOrNat options.maxResults 10
    include_details := jsOrBool options.includeDetails true
    sort_by := options.sortBy
    sort_order := options.sortOrder }

/-- The `{type: 'query', data, apiKey}` message sent when the channel opens. -/
structure WsQueryMessage where
  type : String
  data : SearchRequestParams
  apiKey : String
deriving DecidableEq

/-- The outbound message of `ws.on('open')` (lines 134–148). -/
def wsQueryMessage (apiKey : String) (options : LinkdSearchOptions) : WsQueryMessage :=
  { type := "query", data := buildWsQueryData options, apiKey := apiKey }

/-- `response.data` of a successful synchronous search: each field may be
absent from the JSON payload. -/
structure SyncSearchData where
  results : Option (List LinkdProfileData)
  total_count : Option Nat
  execution_time : Option Nat
deriving DecidableEq

/-- Building the `LinkdSearchResult` from `response.data` (lines 91–95):
`profiles: response.data.results || []`,
`totalCount: response.data.total_count || response.data.results.length`,
`queryExecutionTime: response.data.execution_time || 0`.
Evaluating `response.data.results.length` when `results` is absent throws a
`TypeError` (caught by the surrounding `try`), hence the `Option` result. -/
def syncSearchResult (d : SyncSearchData) : Option LinkdSearchResult :=
  let profiles := d.results.getD []
  let totalCount? : Option Nat :=
    match d.total_count with
    | some n => if n = 0 then d.results.map List.length else some n
    | none => d.results.map List.length
  match totalCount? with
  | some tc =>
      some { profiles := profiles, totalCount := tc,
             queryExecutionTime := jsOrNat d.execution_time 0 }
  | none => none

/-- `LinkdAPI.searchProfiles` (lines 73–104).  The request carries
`buildSyncParams options`; `resp` is the outcome of the `axios.get` call.  Any
failure — of the call itself or of building the result — is routed through
`handleApiError` and degraded to the empty result. -/
def searchProfiles (options : LinkdSearchOptions)
    (resp : Except ApiCallError SyncSearchData) :
    LinkdSearchResult × List LogEntry :=
  match resp with
  | .ok d =>
      match syncSearchResult d with
      | some r => (r, [])
      | none =>
          (⟨[], 0, 0⟩,
           handleApiError "searchProfiles" (.other "TypeError: results is undefined"))
  | .error e => (⟨[], 0, 0⟩, handleApiError "searchProfiles" e)

/-- `response.data` of `findMutualConnections`. -/
structure MutualConnectionsData where
  connections : Option (List String)
deriving DecidableEq

/-- `LinkdAPI.findMutualConnections` (lines 194–216): returns
`response.data.connections || []` on success, `[]` on any failure. -/
def findMutualConnections (profileId1 profileId2 : String)
    (resp : Except ApiCallError MutualConnectionsData) :
    List String × List LogEntry :=
  match resp with
  | .ok d => (d.connections.getD [], [])
  | .error e => ([], handleApiError "findMutualConnections" e)

/-- `response.data` of `getProfileDetails`. -/
structure ProfileDetailsData where
  profile : Option LinkdProfileData
deriving DecidableEq

/-- `LinkdAPI.getProfileDetails` (lines 223–240): returns
`response.data.profile || null` on success, `null` on any failure. -/
def getProfileDetails (profileId : String)
    (resp : Except ApiCallError ProfileDetailsData) :
    Option LinkdProfileData × List LogEntry :=
  match resp with
  | .ok d => (d.profile, [])
  | .error e => (none, handleApiError "getProfileDetails" e)

/-- `response.data` of `requestIntroduction`. -/
structure IntroResponseData where
  success : Option Bool
deriving DecidableEq

/-- `LinkdAPI.requestIntroduction` (lines 247–264): returns
`response.data.success || false` on success, `false` on any failure. -/
def requestIntroduction (request : LinkdIntroRequest)
    (resp : Except ApiCallError IntroResponseData) :
    Bool × List LogEntry :=
  match resp with
  | .ok d => (jsOrBool d.success false, [])
  | .error e => (false, handleApiError "requestIntroduction" e)

/-! ## The streamed search (`searchProfilesWebSocket`, lines 111–186)

The promise executor installs a 30-second timer and four event handlers on
the channel.  We model one invocation as a state machine: `WsState` is the
closure state (`profiles`, `totalCount`, whether the promise has settled, how
many times `ws.close()` has been invoked, whether the timer has been cleared
or has fired, how many parse errors were logged), and `wsStep` executes one
event exactly as the handlers do.  A `setTimeout` callback only runs if
`clearTimeout` has not been called, and runs at most once, so the `.timeout`
event is a no-op once `timeoutCleared` is set.  `resolve`/`reject` after the
promise has settled are no-ops in JavaScript, but the statements around them
(`clearTimeout`, `ws.close()`, logging) still run; `trySettle` captures this. -/

/-- One inbound channel message, as the `ws.on('message')` handler
classifies it after `JSON.parse`:
* `result rs tc` — `{type:'result', data:{results: rs, total_count: tc}}`;
* `complete` — `{type:'complete'}`;
* `error m` — `{type:'error', data:{message: m}}` with `data` present;
* `errorNoData` — `{type:'error'}` with `data` absent: `clearTimeout` and
  `ws.close()` run, then reading `message.data.message` throws, so the
  `catch` logs a parse error and `reject` is never reached;
* `other` — valid JSON of an unknown type: falls through every branch;
* `malformed` — `JSON.parse` throws, or a `result` message whose
  `data`/`data.results` is missing or not spreadable: the handler throws
  before mutating anything and the `catch` logs a parse error. -/
inductive InMsg where
  | result (results : List LinkdProfileData) (total_count : Option Nat)
  | complete
  | error (message : String)
  | errorNoData
  | other
  | malformed
deriving DecidableEq

/-- An event delivered to one streamed-search invocation. -/
inductive WsEvent where
  | msg (m : InMsg)
  | timeout
  | wsError (error : String)
  | wsClose
deriving DecidableEq

/-- How the promise settled.  `resolved` carries `profiles` and `totalCount`
(the wall-clock `queryExecutionTime` is not modelled); `rejectedMsg` is
`reject(new Error(message.data.message))` from an `error` message;
`rejectedConn` is `reject(error)` from the channel's `'error'` event. -/
inductive WsOutcome where
  | resolved (profiles : List LinkdProfileData) (totalCount : Nat)
  | rejectedMsg (message : String)
  | rejectedConn (error : String)
deriving DecidableEq

/-- The closure state of one `searchProfilesWebSocket` invocation. -/
structure WsState where
  profiles : List LinkdProfileData
  totalCount : Nat
  settled : Option WsOutcome
  closeCalls : Nat
  timeoutCleared : Bool
  parseErrorLog : Nat
deriving DecidableEq

/-- State at `new Promise(...)`: nothing accumulated, timer armed. -/
def wsInit : WsState :=
  { profiles := [], totalCount := 0, settled := none, closeCalls := 0,
    timeoutCleared := false, parseErrorLog := 0 }

/-- `resolve`/`reject`: settles the promise if it is still pending,
otherwise a no-op. -/
def trySettle (s : WsState) (o : WsOutcome) : WsState :=
  match s.settled with
  | none => { s with settled := some o }
  | some _ => s

/-- One event, executed exactly as the corresponding handler does:
* `result`: `profiles.push(...results)` then
  `totalCount = total_count || profiles.length` (the already-extended list);
* `complete`: `clearTimeout`, `ws.close()`, `resolve({profiles, totalCount, ..})`;
* `error` message: `clearTimeout`, `ws.close()`, `reject(new Error(message))`;
* `errorNoData`: `clearTimeout`, `ws.close()`, then the throw reaches the
  `catch`, which logs a parse error; no settle;
* `other`: no branch taken;
* `malformed`: the `catch` logs a parse error;
* `timeout` (only if the timer is still armed): `ws.close()`,
  `resolve({profiles, totalCount: profiles.length, ..})`;
* `'error'` event: `clearTimeout`, `reject(error)` — note: no `ws.close()`;
* `'close'` event: `clearTimeout`. -/
def wsStep (s : WsState) : WsEvent → WsState
  | .msg (.result rs tc) =>
      let profiles := s.profiles ++ rs
      { s with profiles := profiles, totalCount := jsOrNat tc profiles.length }
  | .msg .complete =>
      trySettle
        { s with timeoutCleared := true, closeCalls := s.closeCalls + 1 }
        (.resolved s.profiles s.totalCount)
  | .msg (.error m) =>
      trySettle
        { s with timeoutCleared := true, closeCalls := s.closeCalls + 1 }
        (.rejectedMsg m)
  | .msg .errorNoData =>
      { s with timeoutCleared := true, closeCalls := s.closeCalls + 1,
               parseErrorLog := s.parseErrorLog + 1 }
  | .msg .other => s
  | .msg .malformed => { s with parseErrorLog := s.parseErrorLog + 1 }
  | .timeout =>
      if s.timeoutCleared then s
      else
        trySettle
          { s with timeoutCleared := true, closeCalls := s.closeCalls + 1 }
          (.resolved s.profiles s.profiles.length)
  | .wsError e => trySettle { s with timeoutCleared := true } (.rejectedConn e)
  | .wsClose => { s with timeoutCleared := true }

/-- Run one invocation over a sequence of events. -/
def wsRun (s : WsState) (es : List WsEvent) : WsState :=
  es.foldl wsStep s

/-- Events whose handler neither resolves nor rejects the promise:
non-terminal messages and the channel's `'close'` event. -/
def keepsPending : WsEvent → Bool
  | .msg (.result _ _) => true
  | .msg .other => true
  | .msg .malformed => true
  | .msg .errorNoData => true
  | .wsClose => true
  | _ => false

/-- Events whose handler neither settles the promise nor touches the timer:
`result`, unknown-type and unparseable messages. -/
def isQuiet : WsEvent → Bool
  | .msg (.result _ _) => true
  | .msg .other => true
  | .msg .malformed => true
  | _ => false

/-- Two invocation states that agree everywhere except that the first has
logged exactly one more parse error. -/
def EqExceptParseLog (a b : WsState) : Prop :=
  a.profiles = b.profiles ∧ a.totalCount = b.totalCount ∧ a.settled = b.settled ∧
  a.closeCalls = b.closeCalls ∧ a.timeoutCleared = b.timeoutCleared ∧
  a.parseErrorLog = b.parseErrorLog + 1

/-! ### Concrete inputs used by witnesses and counterexamples -/

/-- A concrete profile payload. -/
def exProfile : LinkdProfileData :=
  { id := "p1", name := "Ada", affiliation := "Berkeley", education := [],
    experience := [], interests := [], skills := [], location := "SF",
    contacts := none, connectionsCount := none, bio := none, profileUrl := none,
    graduationYear := none, major := none, clubs := none, volunteerWork := none,
    awards := none, recommendations := none }

/-- Three profiles, as in the three-profile streamed scenario. -/
def exProfiles3 : List LinkdProfileData := [exProfile, exProfile, exProfile]

/-- Eleven profiles: one more than the default `limit` of 10. -/
def exProfiles11 : List LinkdProfileData := List.replicate 11 exProfile

/-- Concrete search options leaving every optional field unset. -/
def exOptions : LinkdSearchOptions :=
  { query := "founders", filters := none, maxResults := none,
    includeDetails := none, sortBy := none, sortOrder := none }

/-! ## Helper lemmas -/

@[simp]
theorem trySettle_profiles (s : WsState) (o : WsOutcome) :
    (trySettle s o).profiles = s.profiles := by
  cases hs : s.settled <;> simp [trySettle, hs]

@[simp]
theorem trySettle_totalCount (s : WsState) (o : WsOutcome) :
    (trySettle s o).totalCount = s.totalCount := by
  cases hs : s.settled <;> simp [trySettle, hs]

@[simp]
theorem trySettle_closeCalls (s : WsState) (o : WsOutcome) :
    (trySettle s o).closeCalls = s.closeCalls := by
  cases hs : s.settled <;> simp [trySettle, hs]

@[simp]
theorem trySettle_timeoutCleared (s : WsState) (o : WsOutcome) :
    (trySettle s o).timeoutCleared = s.timeoutCleared := by
  cases hs : s.settled <;> simp [trySettle, hs]

@[simp]
theorem trySettle_parseErrorLog (s : WsState) (o : WsOutcome) :
    (trySettle s o).parseErrorLog = s.parseErrorLog := by
  cases hs : s.settled <;> simp [trySettle, hs]

@[simp]
theorem trySettle_settled (s : WsState) (o : WsOutcome) :
    (trySettle s o).settled = some (s.settled.getD o) := by
  cases hs : s.settled <;> simp [trySettle, hs]

theorem wsRun_nil (s : WsState) : wsRun s [] = s := rfl

theorem wsRun_cons (s : WsState) (e : WsEvent) (es : List WsEvent) :
    wsRun s (e :: es) = wsRun (wsStep s e) es := rfl

theorem wsRun_append (s : WsState) (l₁ l₂ : List WsEvent) :
    wsRun s (l₁ ++ l₂) = wsRun (wsRun s l₁) l₂ := by
  simp [wsRun, List.foldl_append]

/-- Once the promise is settled, no later event changes the outcome. -/
theorem wsStep_settled_some (s : WsState) (e : WsEvent) (o : WsOutcome)
    (h : s.settled = some o) : (wsStep s e).settled = some o := by
  cases e with
  | msg m => cases m <;> simp [wsStep, h]
  | timeout => cases hc : s.timeoutCleared <;> simp [wsStep, h, hc]
  | wsError err => simp [wsStep, h]
  | wsClose => simp [wsStep, h]

/-- Once the promise is settled, it stays settled with the same outcome. -/
theorem wsRun_settled_some (es : List WsEvent) (s : WsState) (o : WsOutcome)
    (h : s.settled = some o) : (wsRun s es).settled = some o := by
  induction es generalizing s with
  | nil => exact h
  | cons e es ih => exact ih (wsStep s e) (wsStep_settled_some s e o h)

/-- A non-terminal event leaves a pending promise pending. -/
theorem wsStep_keepsPending (s : WsState) (e : WsEvent)
    (hk : keepsPending e = true) (h : s.settled = none) :
    (wsStep s e).settled = none := by
  cases e with
  | msg m => cases m <;> simp_all [wsStep, keepsPending]
  | timeout => simp [keepsPending] at hk
  | wsError err => simp [keepsPending] at hk
  | wsClose => simp [wsStep, h]

/-- A run of non-terminal events leaves a pending promise pending. -/
theorem wsRun_keepsPending (es : List WsEvent) (s : WsState)
    (hk : ∀ e ∈ es, keepsPending e = true) (h : s.settled = none) :
    (wsRun s es).settled = none := by
  induction es generalizing s with
  | nil => exact h
  | cons e es ih =>
      exact ih (wsStep s e) (fun e' he' => hk e' (List.mem_cons_of_mem e he'))
        (wsStep_keepsPending s e (hk e (List.mem_cons_self e es)) h)

/-- A quiet event touches neither the promise nor the timer. -/
theorem wsStep_quiet (s : WsState) (e : WsEvent) (hq : isQuiet e = true) :
    (wsStep s e).settled = s.settled ∧
    (wsStep s e).timeoutCleared = s.timeoutCleared := by
  cases e with
  | msg m => cases m <;> simp_all [wsStep, isQuiet]
  | timeout => simp [isQuiet] at hq
  | wsError err => simp [isQuiet] at hq
  | wsClose => simp [isQuiet] at hq

/-- A run of quiet events touches neither the promise nor the timer. -/
theorem wsRun_quiet (es : List WsEvent) (s : WsState)
    (hq : ∀ e ∈ es, isQuiet e = true) :
    (wsRun s es).settled = s.settled ∧
    (wsRun s es).timeoutCleared = s.timeoutCleared := by
  induction es generalizing s with
  | nil => exact ⟨rfl, rfl⟩
  | cons e es ih =>
      have hstep := wsStep_quiet s e (hq e (List.mem_cons_self e es))
      have hrest := ih (wsStep s e) (fun e' he' => hq e' (List.mem_cons_of_mem e he'))
      exact ⟨hrest.1.trans hstep.1, hrest.2.trans hstep.2⟩

/-- `EqExceptParseLog` is preserved by every event. -/
theorem eqExceptParseLog_step (a b : WsState) (e : WsEvent)
    (h : EqExceptParseLog a b) :
    EqExceptParseLog (wsStep a e) (wsStep b e) := by
  obtain ⟨h1, h2, h3, h4, h5, h6⟩ := h
  cases e with
  | msg m => cases m <;> simp_all [wsStep, EqExceptParseLog]
  | timeout =>
      cases hc : b.timeoutCleared <;>
        simp_all [wsStep, EqExceptParseLog]
  | wsError err => simp_all [wsStep, EqExceptParseLog]
  | wsClose => simp_all [wsStep, EqExceptParseLog]

/-- `EqExceptParseLog` is preserved by every run. -/
theorem eqExceptParseLog_run (es : List WsEvent) (a b : WsState)
    (h : EqExceptParseLog a b) :
    EqExceptParseLog (wsRun a es) (wsRun b es) := by
  induction es generalizing a b with
  | nil => exact h
  | cons e es ih => exact ih (wsStep a e) (wsStep b e) (eqExceptParseLog_step a b e h)

/-- Further `timeout` events after the timer has been cleared (or has fired)
are no-ops. -/
theorem wsRun_timeouts_cleared (es : List WsEvent) (s : WsState)
    (h : ∀ e ∈ es, e = WsEvent.timeout) (hc : s.timeoutCleared = true) :
    wsRun s es = s := by
  induction es with
  | nil => rfl
  | cons e es ih =>
      have he := h e (List.mem_cons_self e es)
      subst he
      rw [wsRun_cons]
      have hstep : wsStep s WsEvent.timeout = s := by simp [wsStep, hc]
      rw [hstep]
      exact ih (fun e' he' => h e' (List.mem_cons_of_mem _ he'))

/-! ## Claims -/

/-- C1, counterexample: a server answering the default-limit query (`limit`
10) with 11 results yields a `SearchResult` with `profiles.length = 11 > 10`
— `searchProfiles` forwards the limit to the server but never trims the
response, so the claimed bound fails for this server response. -/
theorem C1_counterexample :
    (searchProfiles exOptions (.ok ⟨some exProfiles11, none, none⟩)).1.profiles.length = 11 ∧
    jsOrNat exOptions.maxResults 10 = 10 ∧
    ¬ ((searchProfiles exOptions (.ok ⟨some exProfiles11, none, none⟩)).1.profiles.length ≤
        jsOrNat exOptions.maxResults 10) := by
  decide

/-- C1, amended: `searchProfiles` returns the server's results verbatim, so
the invariants hold exactly when the server itself honours them: if the
response's results list is no longer than the effective limit
(`maxResults || 10`) and any present nonzero `total_count` is at least the
results length, then `profiles.length <= maxResults` and
`totalCount >= profiles.length`; failures always satisfy both (empty result). -/
theorem C1_sync_search_bounds (options : LinkdSearchOptions)
    (resp : Except ApiCallError SyncSearchData)
    (hlen : ∀ d, resp = .ok d → (d.results.getD []).length ≤ jsOrNat options.maxResults 10)
    (htc : ∀ d n, resp = .ok d → d.total_count = some n → n ≠ 0 →
        (d.results.getD []).length ≤ n) :
    (searchProfiles options resp).1.profiles.length ≤ jsOrNat options.maxResults 10 ∧
    (searchProfiles options resp).1.profiles.length ≤
      (searchProfiles options resp).1.totalCount := by
  cases resp with
  | error e => simp [searchProfiles]
  | ok d =>
      have h1 := hlen d rfl
      obtain ⟨results, tc, et⟩ := d
      cases results with
      | none =>
          cases tc with
          | none => simp [searchProfiles, syncSearchResult]
          | some n =>
              by_cases hn : n = 0 <;>
                simp [searchProfiles, syncSearchResult, hn]
      | some l =>
          cases tc with
          | none => simp_all [searchProfiles, syncSearchResult]
          | some n =>
              by_cases hn : n = 0
              · simp_all [searchProfiles, syncSearchResult, hn]
              · have h2 := htc ⟨some l, some n, et⟩ n rfl rfl hn
                simp_all [searchProfiles, syncSearchResult, hn]

/-- Witness for `C1_sync_search_bounds`: a compliant server response (one
result, `total_count` 5) satisfies both bounds. -/
theorem C1_sync_search_bounds_witness :
    (searchProfiles exOptions (.ok ⟨some [exProfile], some 5, none⟩)).1.profiles.length ≤
        jsOrNat exOptions.maxResults 10 ∧
    (searchProfiles exOptions (.ok ⟨some [exProfile], some 5, none⟩)).1.profiles.length ≤
        (searchProfiles exOptions (.ok ⟨some [exProfile], some 5, none⟩)).1.totalCount :=
  C1_sync_search_bounds exOptions (.ok ⟨some [exProfile], some 5, none⟩)
    (by intro d h; cases h; decide)
    (by intro d n h h0 hn0; cases h; cases h0; decide)

/-- C2, counterexample: two `complete` messages invoke `ws.close()` twice
(not "exactly once"), and a channel `'error'` event rejects the promise with
`ws.close()` never invoked, leaving the channel open after rejection. -/
theorem C2_counterexample :
    (wsRun wsInit [WsEvent.msg InMsg.complete, WsEvent.msg InMsg.complete]).closeCalls = 2 ∧
    (wsRun wsInit [WsEvent.wsError "connection refused"]).settled
      = some (WsOutcome.rejectedConn "connection refused") ∧
    (wsRun wsInit [WsEvent.wsError "connection refused"]).closeCalls = 0 := by
  decide

/-- C2, amended: the handler invokes `ws.close()` once on each `complete`
message, each `error` message and a live timeout (so several such events close
more than once), while the channel `'error'` event rejects a pending promise
without invoking `ws.close()`. -/
theorem C2_close_on_terminal_events (s : WsState) (m err : String) :
    (wsStep s (.msg .complete)).closeCalls = s.closeCalls + 1 ∧
    (wsStep s (.msg (.error m))).closeCalls = s.closeCalls + 1 ∧
    (s.timeoutCleared = false → (wsStep s .timeout).closeCalls = s.closeCalls + 1) ∧
    (wsStep s (.wsError err)).closeCalls = s.closeCalls ∧
    (s.settled = none →
      (wsStep s (.wsError err)).settled = some (.rejectedConn err)) := by
  refine ⟨by simp [wsStep], by simp [wsStep], ?_, by simp [wsStep], ?_⟩
  · intro h; simp [wsStep, h]
  · intro h; simp [wsStep, h]

/-- Witness for `C2_close_on_terminal_events` at the initial state. -/
theorem C2_close_on_terminal_events_witness :
    (wsStep wsInit (.msg .complete)).closeCalls = 1 ∧
    (wsStep wsInit .timeout).closeCalls = 1 ∧
    (wsStep wsInit (.wsError "boom")).closeCalls = 0 ∧
    (wsStep wsInit (.wsError "boom")).settled = some (.rejectedConn "boom") := by
  obtain ⟨h1, h2, h3, h4, h5⟩ := C2_close_on_terminal_events wsInit "m" "boom"
  exact ⟨h1, h3 rfl, h4, h5 rfl⟩

/-- C3, counterexample: with a `result` message carrying 3 profiles and a
*present* `total_count` of 0, the run resolves with `totalCount = 3`, not the
server-supplied 0: `total_count || profiles.length` treats 0 as falsy. -/
theorem C3_counterexample :
    (wsRun wsInit [WsEvent.msg (InMsg.result exProfiles3 (some 0)),
        WsEvent.msg InMsg.complete]).settled
      = some (WsOutcome.resolved exProfiles3 3) ∧
    (wsRun wsInit [WsEvent.msg (InMsg.result exProfiles3 (some 0)),
        WsEvent.msg InMsg.complete]).settled
      ≠ some (WsOutcome.resolved exProfiles3 0) := by
  decide

/-- C3, amended: one `result` message with 3 profiles followed by `complete`
resolves with exactly those 3 profiles, and with `totalCount` equal to the
server-supplied `total_count` when present *and nonzero*, or 3 when absent
*or zero*. -/
theorem C3_result_then_complete (ps : List LinkdProfileData) (tc : Option Nat)
    (h : ps.length = 3) :
    (wsRun wsInit [WsEvent.msg (InMsg.result ps tc), WsEvent.msg InMsg.complete]).settled
      = some (WsOutcome.resolved ps
          (match tc with
           | some n => if n = 0 then 3 else n
           | none => 3)) := by
  cases tc with
  | none => simp [wsRun, wsStep, jsOrNat, wsInit, h]
  | some n => by_cases hn : n = 0 <;> simp [wsRun, wsStep, jsOrNat, wsInit, h, hn]

/-- Witness for `C3_result_then_complete`: 3 profiles and `total_count` 7
resolve with `totalCount = 7`. -/
theorem C3_result_then_complete_witness :
    (wsRun wsInit [WsEvent.msg (InMsg.result exProfiles3 (some 7)),
        WsEvent.msg InMsg.complete]).settled
      = some (WsOutcome.resolved exProfiles3 7) :=
  C3_result_then_complete exProfiles3 (some 7) (by decide)

/-- C4 (confirmed): if nothing but the 30-second deadline fires — no inbound
message, no channel error or close — the streamed search resolves with the
empty profile list and `totalCount = 0`. -/
theorem C4_timeout_resolves_empty (pre : List WsEvent)
    (h : ∀ e ∈ pre, e = WsEvent.timeout) :
    (wsRun wsInit (pre ++ [WsEvent.timeout])).settled
      = some (WsOutcome.resolved [] 0) := by
  cases pre with
  | nil => decide
  | cons e es =>
      have he := h e (List.mem_cons_self e es)
      subst he
      rw [List.cons_append, wsRun_cons]
      have hs1 : wsStep wsInit WsEvent.timeout
          = ⟨[], 0, some (WsOutcome.resolved [] 0), 1, true, 0⟩ := by decide
      rw [hs1, wsRun_append]
      rw [wsRun_timeouts_cleared es _ (fun e' he' => h e' (List.mem_cons_of_mem _ he')) rfl]
      rfl

/-- Witness for `C4_timeout_resolves_empty` with no earlier events at all. -/
theorem C4_timeout_resolves_empty_witness :
    (wsRun wsInit [WsEvent.timeout]).settled = some (WsOutcome.resolved [] 0) :=
  C4_timeout_resolves_empty [] (by intro e he; cases he)

/-- C5 (confirmed): if an `error` message arrives while the promise is still
pending — only non-terminal events (result/unknown/unparseable messages, the
channel `'close'` event) came before it — the promise rejects with exactly the
server-supplied message, and nothing afterwards changes that outcome. -/
theorem C5_error_message_rejects (pre post : List WsEvent) (m : String)
    (h : ∀ e ∈ pre, keepsPending e = true) :
    (wsRun wsInit (pre ++ WsEvent.msg (InMsg.error m) :: post)).settled
      = some (WsOutcome.rejectedMsg m) := by
  have hp : (wsRun wsInit pre).settled = none := wsRun_keepsPending pre wsInit h rfl
  rw [wsRun_append, wsRun_cons]
  have hstep : (wsStep (wsRun wsInit pre) (.msg (.error m))).settled
      = some (WsOutcome.rejectedMsg m) := by
    simp [wsStep, hp]
  exact wsRun_settled_some post _ _ hstep

/-- Witness for `C5_error_message_rejects`: a result, a malformed message,
then the server's error; a later timeout does not alter the rejection. -/
theorem C5_error_message_rejects_witness :
    (wsRun wsInit [WsEvent.msg (InMsg.result [exProfile] none),
        WsEvent.msg InMsg.malformed,
        WsEvent.msg (InMsg.error "rate limit exceeded"),
        WsEvent.timeout]).settled
      = some (WsOutcome.rejectedMsg "rate limit exceeded") :=
  C5_error_message_rejects
    [WsEvent.msg (InMsg.result [exProfile] none), WsEvent.msg InMsg.malformed]
    [WsEvent.timeout] "rate limit exceeded" (by decide)

/-- C6 (confirmed): when the synchronous HTTP call fails with a 401 Axios
error, `searchProfiles` does not throw: it returns the empty
`SearchResult` (`profiles = []`, `totalCount = 0`, `queryExecutionTime = 0`)
and `handleApiError` emits the distinct authentication log entry
(`Linkd API authentication failed. Check your API key.`). -/
theorem C6_auth_failure_degrades (options : LinkdSearchOptions)
    (responseMessage : Option String) (message : String) :
    (searchProfiles options (.error (.axios (some 401) responseMessage message))).1
      = ⟨[], 0, 0⟩ ∧
    LogEntry.authFailed ∈
      (searchProfiles options (.error (.axios (some 401) responseMessage message))).2 := by
  simp [searchProfiles, handleApiError]

/-- C7, counterexample: an `error`-typed message whose `data` field is absent
is logged as a parse error (it hits the handler's `catch`), yet it is not
merely dropped: before the throw it already ran `clearTimeout` and
`ws.close()`, so a later timeout event can no longer fire and the run ends
unsettled — the stream does not reach a terminal state from the later timeout. -/
theorem C7_counterexample :
    (wsRun wsInit [WsEvent.msg InMsg.errorNoData, WsEvent.timeout]).parseErrorLog = 1 ∧
    (wsRun wsInit [WsEvent.msg InMsg.errorNoData, WsEvent.timeout]).profiles = [] ∧
    (wsRun wsInit [WsEvent.msg InMsg.errorNoData, WsEvent.timeout]).closeCalls = 1 ∧
    (wsRun wsInit [WsEvent.msg InMsg.errorNoData, WsEvent.timeout]).timeoutCleared = true ∧
    (wsRun wsInit [WsEvent.msg InMsg.errorNoData, WsEvent.timeout]).settled = none := by
  decide

/-- C7, amended: an unparseable message (or a `result` message with
missing/unspreadable data) is logged and dropped: inserting it anywhere in an
event sequence changes nothing but the parse-error count, so the stream still
reaches the same terminal state.  An `error`-typed message lacking its `data`
field, however, is logged but not merely dropped: it leaves the accumulated
profiles, running total and pending promise intact, yet cancels the timer and
closes the channel before the throw, so afterwards a `complete` (or `error`)
message still terminates the stream but a timeout no longer can. -/
theorem C7_malformed_dropped (es₁ es₂ : List WsEvent) (s : WsState)
    (hs : s.settled = none) :
    ((wsRun wsInit (es₁ ++ WsEvent.msg InMsg.malformed :: es₂)).profiles
        = (wsRun wsInit (es₁ ++ es₂)).profiles ∧
     (wsRun wsInit (es₁ ++ WsEvent.msg InMsg.malformed :: es₂)).totalCount
        = (wsRun wsInit (es₁ ++ es₂)).totalCount ∧
     (wsRun wsInit (es₁ ++ WsEvent.msg InMsg.malformed :: es₂)).settled
        = (wsRun wsInit (es₁ ++ es₂)).settled ∧
     (wsRun wsInit (es₁ ++ WsEvent.msg InMsg.malformed :: es₂)).closeCalls
        = (wsRun wsInit (es₁ ++ es₂)).closeCalls ∧
     (wsRun wsInit (es₁ ++ WsEvent.msg InMsg.malformed :: es₂)).timeoutCleared
        = (wsRun wsInit (es₁ ++ es₂)).timeoutCleared ∧
     (wsRun wsInit (es₁ ++ WsEvent.msg InMsg.malformed :: es₂)).parseErrorLog
        = (wsRun wsInit (es₁ ++ es₂)).parseErrorLog + 1) ∧
    ((wsStep s (.msg .errorNoData)).settled = none ∧
     (wsStep s (.msg .errorNoData)).profiles = s.profiles ∧
     (wsStep s (.msg .errorNoData)).totalCount = s.totalCount ∧
     (wsStep s (.msg .errorNoData)).parseErrorLog = s.parseErrorLog + 1 ∧
     (wsStep s (.msg .errorNoData)).closeCalls = s.closeCalls + 1 ∧
     (wsStep s (.msg .errorNoData)).timeoutCleared = true ∧
     (wsStep (wsStep s (.msg .errorNoData)) (.msg .complete)).settled
        = some (.resolved s.profiles s.totalCount) ∧
     (wsStep (wsStep s (.msg .errorNoData)) .timeout).settled = none) := by
  constructor
  · have hbase : EqExceptParseLog
        (wsStep (wsRun wsInit es₁) (.msg .malformed)) (wsRun wsInit es₁) := by
      simp [wsStep, EqExceptParseLog]
    have hrun := eqExceptParseLog_run es₂ _ _ hbase
    rw [wsRun_append, wsRun_append, wsRun_cons]
    exact hrun
  · refine ⟨by simp [wsStep, hs], by simp [wsStep], by simp [wsStep],
      by simp [wsStep], by simp [wsStep], by simp [wsStep], ?_, ?_⟩
    · simp [wsStep, hs]
    · simp [wsStep, hs]

/-- Witness for `C7_malformed_dropped`: a malformed message before `complete`
changes only the parse-error count, and after an `error`-typed message without
data a timeout no longer settles the run. -/
theorem C7_malformed_dropped_witness :
    (wsRun wsInit [WsEvent.msg InMsg.malformed, WsEvent.msg InMsg.complete]).settled
      = (wsRun wsInit [WsEvent.msg InMsg.complete]).settled ∧
    (wsRun wsInit [WsEvent.msg InMsg.malformed, WsEvent.msg InMsg.complete]).parseErrorLog
      = (wsRun wsInit [WsEvent.msg InMsg.complete]).parseErrorLog + 1 ∧
    (wsStep (wsStep wsInit (.msg .errorNoData)) .timeout).settled = none := by
  obtain ⟨⟨h1, h2, h3, h4, h5, h6⟩, g1, g2, g3, g4, g5, g6, g7, g8⟩ :=
    C7_malformed_dropped [] [WsEvent.msg InMsg.complete] wsInit rfl
  exact ⟨h3, h6, g8⟩

/-- C8 (confirmed): on any failed HTTP call, the subordinate operations do
not throw and return their safe defaults: `findMutualConnections` the empty
list, `getProfileDetails` `null`, `requestIntroduction` `false`. -/
theorem C8_subordinate_ops_safe_defaults (profileId1 profileId2 profileId : String)
    (request : LinkdIntroRequest) (e : ApiCallError) :
    (findMutualConnections profileId1 profileId2 (.error e)).1 = [] ∧
    (getProfileDetails profileId (.error e)).1 = none ∧
    (requestIntroduction request (.error e)).1 = false := by
  simp [findMutualConnections, getProfileDetails, requestIntroduction]

/-- C9 (confirmed): `options.includeDetails || true` is `true` for every
value of `includeDetails` — including an explicit `false`, which is falsy and
falls back to the default `true` — so both the synchronous request params and
the streamed `query` message always carry `include_details: true`. -/
theorem C9_include_details_always_true (options : LinkdSearchOptions) (apiKey : String) :
    (buildSyncParams options).include_details = true ∧
    (wsQueryMessage apiKey options).data.include_details = true := by
  cases h : options.includeDetails with
  | none => simp [buildSyncParams, wsQueryMessage, buildWsQueryData, jsOrBool, h]
  | some b =>
      cases b <;> simp [buildSyncParams, wsQueryMessage, buildWsQueryData, jsOrBool, h]

/-- C10 (confirmed): when the 30-second timeout fires after only quiet events
(result messages, unknown-type or unparseable messages), the promise resolves
with `totalCount` equal to the number of accumulated profiles
(`totalCount: profiles.length` in the timeout callback) — any server-supplied
running total from `result` messages is discarded. -/
theorem C10_timeout_totalcount_is_length (pre : List WsEvent)
    (h : ∀ e ∈ pre, isQuiet e = true) :
    (wsRun wsInit (pre ++ [WsEvent.timeout])).settled
      = some (WsOutcome.resolved (wsRun wsInit pre).profiles
          (wsRun wsInit pre).profiles.length) := by
  have hq1 : (wsRun wsInit pre).settled = none := (wsRun_quiet pre wsInit h).1.trans rfl
  have hq2 : (wsRun wsInit pre).timeoutCleared = false :=
    (wsRun_quiet pre wsInit h).2.trans rfl
  rw [wsRun_append]
  have hone : wsRun (wsRun wsInit pre) [WsEvent.timeout]
      = wsStep (wsRun wsInit pre) WsEvent.timeout := rfl
  rw [hone]
  simp [wsStep, hq1, hq2]

/-- Witness for `C10_timeout_totalcount_is_length`: one result with a
server-supplied running total of 100, then the timeout: the promise resolves
with `totalCount = 1`, the number of accumulated profiles. -/
theorem C10_timeout_totalcount_is_length_witness :
    (wsRun wsInit [WsEvent.msg (InMsg.result [exProfile] (some 100)),
        WsEvent.timeout]).settled
      = some (WsOutcome.resolved [exProfile] 1) :=
  C10_timeout_totalcount_is_length
    [WsEvent.msg (InMsg.result [exProfile] (some 100))] (by decide)

end LinkdAPI
